import Mathlib

/-!
Shallow embedding of the KDPWriter book lifecycle engine and manuscript
exporter.

The definitions below translate `server/storage.ts` (class `MemStorage`),
the schema declarations (`shared/schema.ts`), and the export service
(`BookExportService`).  JavaScript strings are modelled as Lean `String`s,
with the JS string library calls (`trim`, `split`, `repeat`, `replace`,
`toLowerCase`, `substring`) re-implemented as structural recursions over the
underlying character list so that every definition evaluates inside the
kernel.  `Date` values are modelled as a `Nat` timestamp that each mutating
operation receives as an explicit `now` argument, and `randomUUID()` is
modelled as an explicitly supplied fresh-id argument.  JavaScript number
arithmetic on the progress percentage is modelled over `ℚ` (exact rational
arithmetic); all other numbers in the engine are integers.
-/

/-- Character class of the JavaScript `\s` regex restricted to the ASCII
range (space, tab, line feed, vertical tab, form feed, carriage return). -/
def jsWhitespaceChar (c : Char) : Bool :=
  c = ' ' || c = '\t' || c = '\n' || c.val = 11 || c.val = 12 || c = '\r'

/-- Split a character list at every character satisfying `p`, keeping empty
segments (mirrors JS `String.prototype.split` with a single-character
separator when `p` tests for that character). -/
def splitOnPred (p : Char → Bool) : List Char → List (List Char)
  | [] => [[]]
  | c :: rest =>
    match splitOnPred p rest with
    | [] => [[c]]
    | seg :: segs => if p c then [] :: seg :: segs else (c :: seg) :: segs

/-- Drop leading characters satisfying `jsWhitespaceChar`. -/
def dropLeadingWs : List Char → List Char
  | [] => []
  | c :: rest => if jsWhitespaceChar c then dropLeadingWs rest else c :: rest

/-- JS `String.prototype.trim`: strip whitespace from both ends. -/
def jsTrim (s : String) : String :=
  String.mk (((dropLeadingWs s.data).reverse |> dropLeadingWs).reverse)

/-- JS `s.split('\n')`: split on every line-feed character, keeping empty
segments. -/
def jsSplitLines (s : String) : List String :=
  (splitOnPred (fun c => c = '\n') s.data).map String.mk

/-- JS `s.repeat(n)` for a single string repeated `n` times. -/
def jsRepeat (s : String) (n : Nat) : String :=
  String.join (List.replicate n s)

/-- Word counting as written inline in `MemStorage.updateChapter`:
`content.trim().split(/\s+/).filter(word => word.length > 0).length`.
Splitting on each whitespace character and discarding empty segments yields
exactly the segments of the regex split on whitespace runs. -/
def countWords (content : String) : Nat :=
  ((splitOnPred jsWhitespaceChar (jsTrim content).data).filter
    (fun w => 0 < w.length)).length

/-- JS truthiness fallback `x || d` for an optional string: `undefined`,
`null` and the empty string are all falsy. -/
def jsOrString (x : Option String) (d : String) : String :=
  match x with
  | some s => if s = "" then d else s
  | none => d

/-- JS `x || null` for an optional string: the empty string collapses to
`null`. -/
def jsStringOrNull (x : Option String) : Option String :=
  match x with
  | some s => if s = "" then none else some s
  | none => none

/-- JS truthiness fallback `x || d` for an optional integer: `undefined`,
`null` and `0` are all falsy. -/
def jsOrInt (x : Option Int) (d : Int) : Int :=
  match x with
  | some n => if n = 0 then d else n
  | none => d

/-- JS `Math.round`: round half toward positive infinity. -/
def jsRound (q : ℚ) : Int := ⌊q + 1 / 2⌋

/-- One entry of the outline chapter-plan JSON column
(`shared/schema.ts`, `outlines.chapters`). -/
structure ChapterPlanEntry where
  id : String
  title : String
  description : String
  keyPoints : List String
  estimatedWordCount : Int
deriving Repr, DecidableEq

/-- Record of the `books` table (`shared/schema.ts`). -/
structure Book where
  id : String
  userId : String
  title : String
  genre : String
  targetWordCount : Int
  currentWordCount : Int
  status : String
  progress : Int
  description : Option String
  targetAudience : Option String
  keyPoints : Option (List String)
  createdAt : Nat
  updatedAt : Nat
deriving Repr, DecidableEq

/-- Record of the `outlines` table (`shared/schema.ts`). -/
structure Outline where
  id : String
  bookId : String
  title : String
  chapters : List ChapterPlanEntry
  isApproved : Bool
  approvedAt : Option Nat
  totalChapters : Int
  totalEstimatedWords : Int
  createdAt : Nat
  updatedAt : Nat
deriving Repr, DecidableEq

/-- Record of the `chapters` table (`shared/schema.ts`).  The word count is
a natural number: `MemStorage` only ever stores `0` or a token count. -/
structure Chapter where
  id : String
  bookId : String
  outlineId : String
  chapterNumber : Int
  title : String
  content : Option String
  wordCount : Nat
  status : String
  createdAt : Nat
  updatedAt : Nat
deriving Repr, DecidableEq

/-- Input shape `InsertBook` (insert schema of `books`, id and derived
fields omitted; `status`, `description`, `targetAudience` and `keyPoints`
are optional). -/
structure InsertBook where
  userId : String
  title : String
  genre : String
  targetWordCount : Int
  status : Option String
  description : Option String
  targetAudience : Option String
  keyPoints : Option (List String)
deriving Repr, DecidableEq

/-- Input shape `InsertOutline` (insert schema of `outlines`). -/
structure InsertOutline where
  bookId : String
  title : String
  chapters : List ChapterPlanEntry
  totalChapters : Int
  totalEstimatedWords : Int
deriving Repr, DecidableEq

/-- Input shape `InsertChapter` (insert schema of `chapters`; `content`,
`wordCount` and `status` are optional, and `content` is nullable). -/
structure InsertChapter where
  bookId : String
  outlineId : String
  chapterNumber : Int
  title : String
  content : Option String
  wordCount : Option Nat
  status : Option String
deriving Repr, DecidableEq

/-- Update shape `Partial<Omit<InsertBook, 'userId'>>` accepted by
`MemStorage.updateBook`.  `none` means the key is absent; for the nullable
columns the inner option distinguishes an explicit `null` from a string. -/
structure BookUpdates where
  title : Option String := none
  genre : Option String := none
  targetWordCount : Option Int := none
  status : Option String := none
  description : Option (Option String) := none
  targetAudience : Option (Option String) := none
  keyPoints : Option (Option (List String)) := none
deriving Repr, DecidableEq

/-- Update shape `Partial<Omit<InsertOutline, 'bookId'>>` accepted by
`MemStorage.updateOutline`. -/
structure OutlineUpdates where
  title : Option String := none
  chapters : Option (List ChapterPlanEntry) := none
  totalChapters : Option Int := none
  totalEstimatedWords : Option Int := none
deriving Repr, DecidableEq

/-- Update shape `Partial<Omit<InsertChapter, 'bookId' | 'outlineId'>>`
accepted by `MemStorage.updateChapter`.  The `content` key is itself
nullable, hence the nested option: `none` is an absent key, `some none`
an explicit `null`, `some (some s)` a string. -/
structure ChapterUpdates where
  chapterNumber : Option Int := none
  title : Option String := none
  content : Option (Option String) := none
  wordCount : Option Nat := none
  status : Option String := none
deriving Repr, DecidableEq

/-- The three entity maps of `MemStorage` relevant to the lifecycle engine
and the exporter.  Each JS `Map` is modelled as a list of records in
insertion order; `Map.set` replaces an entry in place or appends. -/
structure StorageState where
  books : List Book := []
  outlines : List Outline := []
  chapters : List Chapter := []
deriving Repr, DecidableEq

/-- JS `Map.set(key, x)`: replace the entry whose key matches `key x`
in place, or append `x` when the key is absent. -/
def upsertBy {α : Type} (key : α → String) (x : α) (l : List α) : List α :=
  if l.any (fun y => key y = key x) then
    l.map (fun y => if key y = key x then x else y)
  else
    l ++ [x]

/-- `MemStorage.getBook`. -/
def getBook (s : StorageState) (id : String) : Option Book :=
  s.books.find? (fun b => b.id = id)

/-- `MemStorage.getOutline`. -/
def getOutline (s : StorageState) (id : String) : Option Outline :=
  s.outlines.find? (fun o => o.id = id)

/-- `MemStorage.getOutlineByBookId`. -/
def getOutlineByBookId (s : StorageState) (bookId : String) : Option Outline :=
  s.outlines.find? (fun o => o.bookId = bookId)

/-- `MemStorage.getChapter`. -/
def getChapter (s : StorageState) (id : String) : Option Chapter :=
  s.chapters.find? (fun c => c.id = id)

/-- Stable insertion of a chapter into a list sorted by chapter number. -/
def insertByChapterNumber (c : Chapter) : List Chapter → List Chapter
  | [] => [c]
  | d :: rest =>
    if c.chapterNumber ≤ d.chapterNumber then c :: d :: rest
    else d :: insertByChapterNumber c rest

/-- Stable sort by ascending chapter number, modelling the JS comparator
`(a, b) => a.chapterNumber - b.chapterNumber`. -/
def sortByChapterNumber : List Chapter → List Chapter
  | [] => []
  | c :: rest => insertByChapterNumber c (sortByChapterNumber rest)

/-- `MemStorage.getChaptersByBookId`: all chapters of the book, sorted by
ascending chapter number. -/
def getChaptersByBookId (s : StorageState) (bookId : String) : List Chapter :=
  sortByChapterNumber (s.chapters.filter (fun c => c.bookId = bookId))

/-- `MemStorage.createBook`: stores the record with derived fields zeroed
and falsy optional inputs collapsed.  No validation is performed. -/
def createBook (s : StorageState) (ins : InsertBook) (newId : String)
    (now : Nat) : StorageState × Book :=
  let book : Book :=
    { id := newId
      userId := ins.userId
      title := ins.title
      genre := ins.genre
      targetWordCount := ins.targetWordCount
      currentWordCount := 0
      status := jsOrString ins.status "idea"
      progress := 0
      description := jsStringOrNull ins.description
      targetAudience := jsStringOrNull ins.targetAudience
      keyPoints := ins.keyPoints
      createdAt := now
      updatedAt := now }
  ({ s with books := upsertBy Book.id book s.books }, book)

/-- `MemStorage.updateBook`: spread-merge of the partial update over the
existing record, refreshing `updatedAt`. -/
def updateBook (s : StorageState) (id : String) (upd : BookUpdates)
    (now : Nat) : StorageState × Option Book :=
  match getBook s id with
  | none => (s, none)
  | some existing =>
    let updated : Book :=
      { existing with
        title := upd.title.getD existing.title
        genre := upd.genre.getD existing.genre
        targetWordCount := upd.targetWordCount.getD existing.targetWordCount
        status := upd.status.getD existing.status
        description := upd.description.getD existing.description
        targetAudience := upd.targetAudience.getD existing.targetAudience
        keyPoints := upd.keyPoints.getD existing.keyPoints
        updatedAt := now }
    ({ s with books := upsertBy Book.id updated s.books }, some updated)

/-- `MemStorage.deleteBook`: removes the book and cascades deletion of its
outlines and chapters; returns whether the book id was present. -/
def deleteBook (s : StorageState) (id : String) : StorageState × Bool :=
  let deleted := s.books.any (fun b => b.id = id)
  ({ s with
      books := s.books.filter (fun b => ¬ b.id = id)
      outlines := s.outlines.filter (fun o => ¬ o.bookId = id)
      chapters := s.chapters.filter (fun c => ¬ c.bookId = id) },
   deleted)

/-- `MemStorage.createOutline`: stores the insert record as supplied, with
the approval fields initialised to false and null.  The totals are taken
verbatim from the caller, not derived from the chapter plan. -/
def createOutline (s : StorageState) (ins : InsertOutline) (newId : String)
    (now : Nat) : StorageState × Outline :=
  let outline : Outline :=
    { id := newId
      bookId := ins.bookId
      title := ins.title
      chapters := ins.chapters
      isApproved := false
      approvedAt := none
      totalChapters := ins.totalChapters
      totalEstimatedWords := ins.totalEstimatedWords
      createdAt := now
      updatedAt := now }
  ({ s with outlines := upsertBy Outline.id outline s.outlines }, outline)

/-- The field merge of `MemStorage.updateOutline`: every field uses the JS
`||` fallback (`updates.title || existing.title`, and so on), so falsy
update values keep the existing value; the approval fields are carried over
unchanged. -/
def mergeOutline (existing : Outline) (upd : OutlineUpdates) (now : Nat) :
    Outline :=
  { existing with
    title := jsOrString upd.title existing.title
    chapters :=
      match upd.chapters with
      | some cs => cs
      | none => existing.chapters
    totalChapters := jsOrInt upd.totalChapters existing.totalChapters
    totalEstimatedWords :=
      jsOrInt upd.totalEstimatedWords existing.totalEstimatedWords
    updatedAt := now }

/-- `MemStorage.updateOutline`. -/
def updateOutline (s : StorageState) (id : String) (upd : OutlineUpdates)
    (now : Nat) : Option (StorageState × Outline) :=
  match getOutline s id with
  | none => none
  | some existing =>
    let updated := mergeOutline existing upd now
    some ({ s with outlines := upsertBy Outline.id updated s.outlines },
          updated)

/-- The approval rewrite of `MemStorage.approveOutline`. -/
def approvedOutline (existing : Outline) (now : Nat) : Outline :=
  { existing with
    isApproved := true
    approvedAt := some now
    updatedAt := now }

/-- `MemStorage.approveOutline`: sets the approval flag and timestamp, then
cascades `updateBook(bookId, \x7b status: "approved" \x7d)`. -/
def approveOutline (s : StorageState) (id : String) (now : Nat) :
    Option (StorageState × Outline) :=
  match getOutline s id with
  | none => none
  | some existing =>
    let updated := approvedOutline existing now
    let s₁ := { s with outlines := upsertBy Outline.id updated s.outlines }
    let s₂ := (updateBook s₁ existing.bookId { status := some "approved" } now).1
    some (s₂, updated)

/-- `MemStorage.createChapter`: stores the record with `wordCount` fixed at
`0` (the supplied content is stored but never counted here), falsy content
collapsed to null, and falsy status defaulted to "pending". -/
def createChapter (s : StorageState) (ins : InsertChapter) (newId : String)
    (now : Nat) : StorageState × Chapter :=
  let chapter : Chapter :=
    { id := newId
      bookId := ins.bookId
      outlineId := ins.outlineId
      chapterNumber := ins.chapterNumber
      title := ins.title
      content := jsStringOrNull ins.content
      wordCount := 0
      status := jsOrString ins.status "pending"
      createdAt := now
      updatedAt := now }
  ({ s with chapters := upsertBy Chapter.id chapter s.chapters }, chapter)

/-- The word count computed inline in `MemStorage.updateChapter`:
recomputed only when the `content` value is truthy (a non-empty string); an
absent key, an explicit `null` or an empty string keep the stored count. -/
def newWordCount (existing : Chapter) (content : Option (Option String)) : Nat :=
  match content with
  | some (some c) => if c = "" then existing.wordCount else countWords c
  | _ => existing.wordCount

/-- The spread merge of `MemStorage.updateChapter`
(`\x7b ...existing, ...updates, wordCount, updatedAt \x7d`): the explicit
`wordCount` field overwrites any `wordCount` supplied in the update. -/
def mergeChapter (existing : Chapter) (upd : ChapterUpdates) (now : Nat) :
    Chapter :=
  { existing with
    chapterNumber := upd.chapterNumber.getD existing.chapterNumber
    title := upd.title.getD existing.title
    content :=
      match upd.content with
      | some v => v
      | none => existing.content
    wordCount := newWordCount existing upd.content
    status := upd.status.getD existing.status
    updatedAt := now }

/-- The book rewrite of `MemStorage.updateChapter`: progress is
`Math.min(Math.round((totalWords / targetWordCount) * 100), 100)`, modelled
over exact rationals, and status is completed exactly at progress 100,
otherwise writing. -/
def bookAfterContentUpdate (book : Book) (totalWords : Nat) (now : Nat) :
    Book :=
  let progress : Int :=
    min (jsRound ((totalWords : ℚ) / (book.targetWordCount : ℚ) * 100)) 100
  { book with
    currentWordCount := (totalWords : Int)
    progress := progress
    status := if progress = 100 then "completed" else "writing"
    updatedAt := now }

/-- `MemStorage.updateChapter`.  When the `content` key is present at all,
the parent book's aggregate word count, progress and status are recomputed
(substituting the just-computed count for the edited chapter) and the book
is rewritten; otherwise the books map is untouched. -/
def updateChapter (s : StorageState) (id : String) (upd : ChapterUpdates)
    (now : Nat) : Option (StorageState × Chapter) :=
  match getChapter s id with
  | none => none
  | some existing =>
    let updated := mergeChapter existing upd now
    let s₁ := { s with chapters := upsertBy Chapter.id updated s.chapters }
    if upd.content.isSome then
      let allChapters := getChaptersByBookId s₁ existing.bookId
      let totalWords := allChapters.foldl
        (fun sum ch => sum +
          (if ch.id = id then newWordCount existing upd.content
           else ch.wordCount)) 0
      match getBook s₁ existing.bookId with
      | none => some (s₁, updated)
      | some book =>
        some ({ s₁ with
                books := upsertBy Book.id
                  (bookAfterContentUpdate book totalWords now) s₁.books },
              updated)
    else
      some (s₁, updated)

/-- Escape of one character as performed by `BookExportService.escapeHtml`
(`text.replace(/[&<>"']/g, ...)`); the quote characters are matched by
their code points 34 and 39. -/
def escapeHtmlChar (c : Char) : String :=
  if c = '&' then "&amp;"
  else if c = '<' then "&lt;"
  else if c = '>' then "&gt;"
  else if c.val = 34 then "&quot;"
  else if c.val = 39 then "&#039;"
  else String.mk [c]

/-- `BookExportService.escapeHtml`. -/
def escapeHtml (text : String) : String :=
  String.join (text.data.map escapeHtmlChar)

/-- `BookExportService.parseContentToParagraphs`: split on line feeds,
discard blank lines, trim each kept line. -/
def parseContentToParagraphs (content : String) : List String :=
  ((jsSplitLines content).filter (fun line => 0 < (jsTrim line).length)).map
    (fun line => jsTrim line)

/-- `BookExportService.parseContentToHTML`: one escaped `p` element per
non-blank line, joined with line feeds. -/
def parseContentToHTML (content : String) : String :=
  String.intercalate "\n"
    (((jsSplitLines content).filter (fun line => 0 < (jsTrim line).length)).map
      (fun line => "<p>" ++ escapeHtml (jsTrim line) ++ "</p>"))

/-- `BookExportService.sanitizeFilename`: replace every character outside
`[a-z0-9]` (case-insensitive) with an underscore, lower-case, truncate to
100 characters. -/
def sanitizeFilename (filename : String) : String :=
  String.mk
    (((filename.data.map (fun c => if c.isAlphanum then c else '_')).map
      Char.toLower).take 100)

/-- `ExportOptions` of the export service.  The format is kept as a string
token: the runtime dispatch in `exportBook` tests it against the four
supported tokens and rejects anything else. -/
structure ExportOptions where
  format : String
  pageSize : String
  includeTableOfContents : Bool
  includeMetadata : Bool
  amazonKdpFormatting : Option Bool := none
deriving Repr, DecidableEq

/-- The errors thrown by `BookExportService.exportBook`, named after the
four `throw new Error(...)` sites: "Book not found", "Book must be
completed before export", "No chapters found for book", and
"Unsupported export format". -/
inductive ExportError where
  | bookNotFound
  | invalidStateNotCompleted
  | chaptersNotFound
  | unsupportedFormat (format : String)
deriving Repr, DecidableEq

/-- The produced artifact body.  The plain-text format carries its exact
output string.  For the three binary formats the model carries the data
handed to the external serialiser (the document-building library, the
headless HTML renderer, the zip container), whose byte-level encoding is
outside this repository. -/
inductive ExportBuffer where
  | textBytes (content : String)
  | docxDocument (paragraphTexts : List String)
  | pdfRendered (html : String)
  | epubZip (files : List (String × String))
deriving Repr, DecidableEq

/-- `ExportResult` of the export service. -/
structure ExportResult where
  filename : String
  buffer : ExportBuffer
  mimeType : String
deriving Repr, DecidableEq

/-- Heading line `Chapter N: Title` used by every format. -/
def chapterHeading (ch : Chapter) : String :=
  "Chapter " ++ toString ch.chapterNumber ++ ": " ++ ch.title

/-- Chapter blocks of the plain-text export; the flag tracks the JS
`index > 0` separator test. -/
def textChapterBlocks : Bool → List Chapter → String
  | _, [] => ""
  | isFirst, ch :: rest =>
    (if isFirst then "" else "\n\n") ++
    chapterHeading ch ++ "\n" ++
    jsRepeat "-" (chapterHeading ch).length ++ "\n\n" ++
    (ch.content.getD "") ++ "\n" ++
    textChapterBlocks false rest

/-- `BookExportService.exportToText`. -/
def exportToText (book : Book) (chapters : List Chapter)
    (outline : Option Outline) (options : ExportOptions) : ExportResult :=
  let header := book.title ++ "\n" ++ jsRepeat "=" book.title.length ++ "\n\n"
  let metadata :=
    if options.includeMetadata then
      "Genre: " ++ book.genre ++ "\n" ++
      "Target Audience: " ++ jsOrString book.targetAudience "General" ++ "\n" ++
      "Word Count: " ++ toString book.currentWordCount ++ " words\n\n"
    else ""
  let toc :=
    if options.includeTableOfContents then
      "TABLE OF CONTENTS\n" ++ jsRepeat "-" 17 ++ "\n\n" ++
      String.join (chapters.map (fun ch => chapterHeading ch ++ "\n")) ++
      "\n\n"
    else ""
  let content := header ++ metadata ++ toc ++ textChapterBlocks true chapters
  { filename := sanitizeFilename book.title ++ ".txt"
    buffer := ExportBuffer.textBytes content
    mimeType := "text/plain" }

/-- `BookExportService.exportToDocx`: the document structure handed to the
external document library, flattened to the paragraph texts in order. -/
def exportToDocx (book : Book) (chapters : List Chapter)
    (outline : Option Outline) (options : ExportOptions) : ExportResult :=
  let paragraphs : List String :=
    [book.title] ++
    (if options.includeMetadata then
      ["Genre: " ++ book.genre,
       "Target Audience: " ++ jsOrString book.targetAudience "General",
       "Word Count: " ++ toString book.currentWordCount ++ " words"]
     else []) ++
    (if options.includeTableOfContents then
      ["Table of Contents"] ++ chapters.map chapterHeading ++ [""]
     else []) ++
    chapters.flatMap (fun ch =>
      [chapterHeading ch] ++ parseContentToParagraphs (ch.content.getD ""))
  { filename := sanitizeFilename book.title ++ ".docx"
    buffer := ExportBuffer.docxDocument paragraphs
    mimeType :=
      "application/vnd.openxmlformats-officedocument.wordprocessingml.document" }

/-- Marker for the Amazon-KDP print style sheet of `generateHTML`; its CSS
text has no bearing on any verified property and is abbreviated to an
opaque token. -/
def kdpStyleSheet : String := "amazon-kdp-print-styles"

/-- Marker for the default print style sheet of `generateHTML`. -/
def standardStyleSheet : String := "standard-print-styles"

/-- `BookExportService.generateHTML`: the HTML document handed to the
headless renderer for the paginated export. -/
def generateHTML (book : Book) (chapters : List Chapter)
    (outline : Option Outline) (options : ExportOptions) : String :=
  let styles :=
    if options.amazonKdpFormatting.getD false then kdpStyleSheet
    else standardStyleSheet
  let metadata :=
    if options.includeMetadata then
      "<p>Genre: " ++ book.genre ++ "</p>\n" ++
      "<p>Target Audience: " ++ jsOrString book.targetAudience "General" ++
      "</p>\n" ++
      "<p>Word Count: " ++ toString book.currentWordCount ++ " words</p>\n"
    else ""
  let toc :=
    if options.includeTableOfContents then
      "<div class=\"toc\">\n<h1>Table of Contents</h1>\n" ++
      String.join (chapters.map (fun ch =>
        "<p>" ++ chapterHeading ch ++ "</p>\n")) ++
      "</div>\n"
    else ""
  let body :=
    String.join (chapters.map (fun ch =>
      "<div class=\"chapter\">\n<h1>" ++ chapterHeading ch ++ "</h1>\n" ++
      parseContentToHTML (ch.content.getD "") ++ "\n</div>\n"))
  "<!DOCTYPE html>\n<html>\n<head>\n<meta charset=\"UTF-8\">\n<title>" ++
  book.title ++ "</title>\n<style>" ++ styles ++ "</style>\n</head>\n<body>\n" ++
  "<div class=\"title-page\">\n<div class=\"title\">" ++ book.title ++
  "</div>\n" ++ metadata ++ "</div>\n" ++ toc ++ body ++ "</body>\n</html>\n"

/-- `BookExportService.getPageConfig`: named page size to the renderer's
physical page format (default letter). -/
def getPageConfig (pageSize : String) : String :=
  if pageSize = "a4" then "A4"
  else if pageSize = "kindle" then "A5"
  else "Letter"

/-- `BookExportService.exportToPdf`: the model carries the HTML handed to
the external headless renderer. -/
def exportToPdf (book : Book) (chapters : List Chapter)
    (outline : Option Outline) (options : ExportOptions) : ExportResult :=
  { filename := sanitizeFilename book.title ++ ".pdf"
    buffer := ExportBuffer.pdfRendered (generateHTML book chapters outline options)
    mimeType := "application/pdf" }

/-- The fixed `META-INF/container.xml` entry of the e-book package. -/
def containerXml : String :=
  "<?xml version=\"1.0\"?>\n" ++
  "<container version=\"1.0\" " ++
  "xmlns=\"urn:oasis:names:tc:opendocument:xmlns:container\">\n" ++
  "  <rootfiles>\n" ++
  "    <rootfile full-path=\"OEBPS/content.opf\" " ++
  "media-type=\"application/oebps-package+xml\"/>\n" ++
  "  </rootfiles>\n</container>"

/-- The `OEBPS/content.opf` package manifest of the e-book export: metadata
plus one manifest item and one spine entry per chapter. -/
def contentOpf (book : Book) (chapters : List Chapter) : String :=
  "<?xml version=\"1.0\" encoding=\"UTF-8\"?>\n" ++
  "<package xmlns=\"http://www.idpf.org/2007/opf\" " ++
  "unique-identifier=\"bookid\" version=\"2.0\">\n" ++
  "  <metadata>\n" ++
  "    <dc:title>" ++ book.title ++ "</dc:title>\n" ++
  "    <dc:creator>BookGen AI</dc:creator>\n" ++
  "    <dc:identifier id=\"bookid\">" ++ book.id ++ "</dc:identifier>\n" ++
  "    <dc:language>en</dc:language>\n" ++
  "    <dc:subject>" ++ book.genre ++ "</dc:subject>\n" ++
  "  </metadata>\n" ++
  "  <manifest>\n" ++
  "    <item id=\"ncx\" href=\"toc.ncx\" " ++
  "media-type=\"application/x-dtbncx+xml\"/>\n" ++
  String.intercalate "\n    "
    (chapters.map (fun ch =>
      "<item id=\"ch" ++ toString ch.chapterNumber ++ "\" href=\"chapter" ++
      toString ch.chapterNumber ++
      ".xhtml\" media-type=\"application/xhtml+xml\"/>")) ++
  "\n  </manifest>\n  <spine toc=\"ncx\">\n    " ++
  String.intercalate "\n    "
    (chapters.map (fun ch =>
      "<itemref idref=\"ch" ++ toString ch.chapterNumber ++ "\"/>")) ++
  "\n  </spine>\n</package>"

/-- One `OEBPS/chapterN.xhtml` entry of the e-book export. -/
def chapterXhtml (ch : Chapter) : String :=
  "<?xml version=\"1.0\" encoding=\"UTF-8\"?>\n" ++
  "<!DOCTYPE html PUBLIC \"-//W3C//DTD XHTML 1.1//EN\" " ++
  "\"http://www.w3.org/TR/xhtml11/DTD/xhtml11.dtd\">\n" ++
  "<html xmlns=\"http://www.w3.org/1999/xhtml\">\n<head>\n  <title>" ++
  ch.title ++ "</title>\n</head>\n<body>\n  <h1>" ++ chapterHeading ch ++
  "</h1>\n  " ++ parseContentToHTML (ch.content.getD "") ++
  "\n</body>\n</html>"

/-- `BookExportService.exportToEpub`: the zip entries (path and content)
handed to the external zip library. -/
def exportToEpub (book : Book) (chapters : List Chapter)
    (outline : Option Outline) (options : ExportOptions) : ExportResult :=
  let files : List (String × String) :=
    [("mimetype", "application/epub+zip"),
     ("META-INF/container.xml", containerXml),
     ("OEBPS/content.opf", contentOpf book chapters)] ++
    chapters.map (fun ch =>
      ("OEBPS/chapter" ++ toString ch.chapterNumber ++ ".xhtml",
       chapterXhtml ch))
  { filename := sanitizeFilename book.title ++ ".epub"
    buffer := ExportBuffer.epubZip files
    mimeType := "application/epub+zip" }

/-- `BookExportService.exportBook`: precondition checks in source order
(book lookup, completed status, non-empty chapter list), then dispatch on
the format token.  The function reads the store but never writes it; the
returned state is the input state on every path. -/
def exportBook (s : StorageState) (bookId : String)
    (options : ExportOptions) : StorageState × Except ExportError ExportResult :=
  match getBook s bookId with
  | none => (s, Except.error ExportError.bookNotFound)
  | some book =>
    if book.status ≠ "completed" then
      (s, Except.error ExportError.invalidStateNotCompleted)
    else
      let chapters := getChaptersByBookId s bookId
      if chapters.isEmpty then
        (s, Except.error ExportError.chaptersNotFound)
      else
        let outline := getOutlineByBookId s bookId
        let sortedChapters := sortByChapterNumber chapters
        if options.format = "docx" then
          (s, Except.ok (exportToDocx book sortedChapters outline options))
        else if options.format = "pdf" then
          (s, Except.ok (exportToPdf book sortedChapters outline options))
        else if options.format = "txt" then
          (s, Except.ok (exportToText book sortedChapters outline options))
        else if options.format = "epub" then
          (s, Except.ok (exportToEpub book sortedChapters outline options))
        else
          (s, Except.error (ExportError.unsupportedFormat options.format))

/-- The mutating operations of the lifecycle engine (the `MemStorage`
methods that touch books, outlines or chapters), each carrying its call
arguments, the generated id where the source calls `randomUUID()`, and the
timestamp where the source calls `new Date()`. -/
inductive Op where
  | createBook (ins : InsertBook) (newId : String) (now : Nat)
  | updateBook (id : String) (upd : BookUpdates) (now : Nat)
  | deleteBook (id : String)
  | createOutline (ins : InsertOutline) (newId : String) (now : Nat)
  | updateOutline (id : String) (upd : OutlineUpdates) (now : Nat)
  | approveOutline (id : String) (now : Nat)
  | createChapter (ins : InsertChapter) (newId : String) (now : Nat)
  | updateChapter (id : String) (upd : ChapterUpdates) (now : Nat)
deriving Repr, DecidableEq

/-- Resulting storage state of one operation (operations on a missing id
leave the state unchanged, mirroring the early `return undefined`). -/
def applyOp (s : StorageState) : Op → StorageState
  | Op.createBook ins newId now => (createBook s ins newId now).1
  | Op.updateBook id upd now => (updateBook s id upd now).1
  | Op.deleteBook id => (deleteBook s id).1
  | Op.createOutline ins newId now => (createOutline s ins newId now).1
  | Op.updateOutline id upd now =>
    match updateOutline s id upd now with
    | some (s', _) => s'
    | none => s
  | Op.approveOutline id now =>
    match approveOutline s id now with
    | some (s', _) => s'
    | none => s
  | Op.createChapter ins newId now => (createChapter s ins newId now).1
  | Op.updateChapter id upd now =>
    match updateChapter s id upd now with
    | some (s', _) => s'
    | none => s

/-- Freshness of the generated id of a create operation: `randomUUID()`
never collides with an id already present in the store.  Operations that
generate no outline id impose no condition. -/
def opFreshOutlineId (s : StorageState) : Op → Prop
  | Op.createOutline _ newId _ => getOutline s newId = none
  | _ => True

/-- Every element of an upsert result whose key matches the inserted
element's key is the inserted element. -/
theorem upsertBy_mem_key_eq {α : Type} (key : α → String) (x : α)
    (l : List α) (y : α) (hy : y ∈ upsertBy key x l) (hk : key y = key x) :
    y = x := by
  unfold upsertBy at hy
  split at hy
  · rcases List.mem_map.mp hy with ⟨z, _, hz⟩
    by_cases hcase : key z = key x
    · simpa [hcase] using hz.symm
    · rw [if_neg hcase] at hz
      exact absurd (hz ▸ hk) hcase
  · rename_i hno
    rcases List.mem_append.mp hy with hl | hx
    · exact absurd hk (fun hkey =>
        hno (List.any_eq_true.mpr ⟨y, hl, by simpa using hkey⟩))
    · simpa using hx

/-- Lookup of the inserted key after an upsert returns the inserted
element. -/
theorem find?_upsertBy {α : Type} (key : α → String) (x : α) (l : List α) :
    (upsertBy key x l).find? (fun y => key y = key x) = some x := by
  unfold upsertBy
  split
  · rename_i hyes
    induction l with
    | nil => simp at hyes
    | cons z zs ih =>
      by_cases hz : key z = key x
      · simp [List.find?, hz]
      · simp only [List.any_cons, Bool.or_eq_true, decide_eq_true_eq] at hyes
        rcases hyes with h | h
        · exact absurd h hz
        · simpa [List.find?, hz] using ih (by simpa using h)
  · rename_i hno
    induction l with
    | nil => simp [List.find?]
    | cons z zs ih =>
      simp only [List.any_cons, Bool.or_eq_true, decide_eq_true_eq, not_or] at hno
      simpa [List.find?, hno.1] using ih (by simpa using hno.2)

/-- Keyed form of the upsert lookup lemma. -/
theorem find?_upsertBy_of_key {α : Type} (key : α → String) (x : α)
    (l : List α) (k : String) (hk : key x = k) :
    (upsertBy key x l).find? (fun y => key y = k) = some x := by
  subst hk
  exact find?_upsertBy key x l

/-- Left fold of addition over mapped values is the sum of the mapped
list. -/
theorem foldl_add_map_sum {α : Type} (l : List α) (f : α → Nat) (n : Nat) :
    l.foldl (fun acc x => acc + f x) n = n + (l.map f).sum := by
  induction l generalizing n with
  | nil => simp
  | cons x xs ih => simp [ih, Nat.add_assoc]

/-- Stable insertion produces a permutation of consing. -/
theorem insertByChapterNumber_perm (c : Chapter) (l : List Chapter) :
    (insertByChapterNumber c l).Perm (c :: l) := by
  induction l with
  | nil => exact List.Perm.refl _
  | cons d rest ih =>
    unfold insertByChapterNumber
    split
    · exact List.Perm.refl _
    · exact (ih.cons d).trans (List.Perm.swap c d rest)

/-- The chapter sort is a permutation of its input. -/
theorem sortByChapterNumber_perm (l : List Chapter) :
    (sortByChapterNumber l).Perm l := by
  induction l with
  | nil => exact List.Perm.refl _
  | cons c rest ih =>
    exact (insertByChapterNumber_perm c (sortByChapterNumber rest)).trans (ih.cons c)

/-- Members of the per-book chapter listing are stored chapters of that
book. -/
theorem mem_getChaptersByBookId (s : StorageState) (bookId : String)
    (c : Chapter) (hc : c ∈ getChaptersByBookId s bookId) :
    c ∈ s.chapters ∧ c.bookId = bookId := by
  have hmem := (sortByChapterNumber_perm _).mem_iff.mp hc
  have := List.mem_filter.mp hmem
  exact ⟨this.1, by simpa using this.2⟩

/-- The aggregate computed by `updateChapter` over the just-updated chapter
list (substituting the new count for the edited chapter) equals the plain
sum of the stored word counts of the book's chapters. -/
theorem totalWords_eq_sum (chs : List Chapter) (cid : String) (u : Chapter)
    (w : Nat) (hcid : u.id = cid) (hw : u.wordCount = w) (bid : String) :
    (sortByChapterNumber
        ((upsertBy Chapter.id u chs).filter (fun c => c.bookId = bid))).foldl
      (fun acc c => acc + (if c.id = cid then w else c.wordCount)) 0 =
    (((upsertBy Chapter.id u chs).filter (fun c => c.bookId = bid)).map
      Chapter.wordCount).sum := by
  have hperm := sortByChapterNumber_perm
    ((upsertBy Chapter.id u chs).filter (fun c => c.bookId = bid))
  rw [foldl_add_map_sum, Nat.zero_add]
  have hcong : ∀ c ∈ sortByChapterNumber
      ((upsertBy Chapter.id u chs).filter (fun c => c.bookId = bid)),
      (if c.id = cid then w else c.wordCount) = c.wordCount := by
    intro c hc
    by_cases h : c.id = cid
    · have hcmem : c ∈ upsertBy Chapter.id u chs :=
        (List.mem_filter.mp (hperm.mem_iff.mp hc)).1
      have hcu : c = u :=
        upsertBy_mem_key_eq Chapter.id u chs c hcmem (by rw [h, hcid])
      rw [if_pos h, hcu, hw]
    · rw [if_neg h]
  rw [List.map_congr_left hcong]
  exact (hperm.map Chapter.wordCount).sum_eq

/-- Full characterisation of a content-carrying `updateChapter` call on an
existing chapter whose book exists: the call succeeds and the rewritten
book stores the aggregate word count of the book's chapters, the clamped
rounded progress over it, and the status derived from that progress. -/
theorem updateChapter_content_run
    (s : StorageState) (cid : String) (upd : ChapterUpdates) (now : Nat)
    (ch : Chapter) (b : Book)
    (hfind : getChapter s cid = some ch)
    (hcontent : upd.content.isSome = true)
    (hbook : getBook s ch.bookId = some b) :
    ∃ s' ch' b',
      updateChapter s cid upd now = some (s', ch') ∧
      getBook s' ch.bookId = some b' ∧
      b'.targetWordCount = b.targetWordCount ∧
      b'.currentWordCount =
        (((s'.chapters.filter (fun c => c.bookId = ch.bookId)).map
          Chapter.wordCount).sum : Int) ∧
      b'.progress =
        min (jsRound ((b'.currentWordCount : ℚ) /
          (b.targetWordCount : ℚ) * 100)) 100 ∧
      b'.status = (if b'.progress = 100 then "completed" else "writing") := by
  have hchid : ch.id = cid := by
    have := List.find?_some hfind
    simpa using this
  have hbid : b.id = ch.bookId := by
    have := List.find?_some hbook
    simpa using this
  have hbook' :
      List.find? (fun y => y.id = ch.bookId) s.books = some b := hbook
  have hmid : (mergeChapter ch upd now).id = cid := hchid
  have hmw : (mergeChapter ch upd now).wordCount = newWordCount ch upd.content :=
    rfl
  simp only [updateChapter, hfind, hcontent, if_true, getChaptersByBookId,
    getBook, hbook']
  exact ⟨_, _, _, rfl,
    find?_upsertBy_of_key Book.id _ s.books ch.bookId hbid, rfl,
    congrArg Int.ofNat
      (totalWords_eq_sum s.chapters cid (mergeChapter ch upd now)
        (newWordCount ch upd.content) hmid hmw ch.bookId),
    by simp only [bookAfterContentUpdate]; norm_cast, rfl⟩

/-- Concrete book used to exercise the lifecycle theorems. -/
def sampleBook : Book :=
  { id := "b1", userId := "u1", title := "My Book", genre := "self-help",
    targetWordCount := 4, currentWordCount := 0, status := "approved",
    progress := 0, description := none, targetAudience := none,
    keyPoints := none, createdAt := 0, updatedAt := 0 }

/-- Concrete chapter of `sampleBook`. -/
def sampleChapter : Chapter :=
  { id := "c1", bookId := "b1", outlineId := "o1", chapterNumber := 1,
    title := "Intro", content := none, wordCount := 0, status := "pending",
    createdAt := 0, updatedAt := 0 }

/-- Concrete store holding `sampleBook` and `sampleChapter`. -/
def sampleState : StorageState :=
  { books := [sampleBook], outlines := [], chapters := [sampleChapter] }

/-- C1: after any update of a chapter that includes a content field, the
parent book's currentWordCount equals the sum of the stored word counts of
all chapters belonging to that book, and (given a positive target word
count) its progress equals min(100, round(100 * currentWordCount /
targetWordCount)). -/
theorem c1_updateChapter_aggregates_invariant
    (s : StorageState) (cid : String) (upd : ChapterUpdates) (now : Nat)
    (ch : Chapter) (b : Book)
    (hfind : getChapter s cid = some ch)
    (hcontent : upd.content.isSome = true)
    (hbook : getBook s ch.bookId = some b)
    (htarget : 0 < b.targetWordCount) :
    ∃ s' ch' b',
      updateChapter s cid upd now = some (s', ch') ∧
      getBook s' ch.bookId = some b' ∧
      b'.currentWordCount =
        (((s'.chapters.filter (fun c => c.bookId = ch.bookId)).map
          Chapter.wordCount).sum : Int) ∧
      b'.progress =
        min 100 (jsRound
          (100 * (b'.currentWordCount : ℚ) / (b.targetWordCount : ℚ))) := by
  obtain ⟨s', ch', b', hrun, hfound, _, hcwc, hprog, _⟩ :=
    updateChapter_content_run s cid upd now ch b hfind hcontent hbook
  refine ⟨s', ch', b', hrun, hfound, hcwc, ?_⟩
  rw [hprog, min_comm]
  have harg : (b'.currentWordCount : ℚ) / (b.targetWordCount : ℚ) * 100 =
      100 * (b'.currentWordCount : ℚ) / (b.targetWordCount : ℚ) := by
    ring
  rw [harg]

/-- Witness for C1 on the concrete sample store. -/
theorem c1_updateChapter_aggregates_invariant_witness :
    getChapter sampleState "c1" = some sampleChapter ∧
    getBook sampleState "b1" = some sampleBook ∧
    (0 : Int) < sampleBook.targetWordCount ∧
    ∃ s' ch' b',
      updateChapter sampleState "c1"
        { content := some (some "alpha beta") } 5 = some (s', ch') ∧
      getBook s' "b1" = some b' ∧
      b'.currentWordCount =
        (((s'.chapters.filter (fun c => c.bookId = "b1")).map
          Chapter.wordCount).sum : Int) ∧
      b'.progress =
        min 100 (jsRound
          (100 * (b'.currentWordCount : ℚ) /
            (sampleBook.targetWordCount : ℚ))) :=
  ⟨by decide, by decide, by decide,
    c1_updateChapter_aggregates_invariant sampleState "c1"
      { content := some (some "alpha beta") } 5 sampleChapter sampleBook
      (by decide) (by decide) (by decide) (by decide)⟩

/-- C3: after a content-carrying chapter update, the parent book's status
is completed when the resulting aggregate progress is 100, and writing when
the resulting progress is below 100 and the prior status was approved,
outline or writing. -/
theorem c3_updateChapter_status_transitions
    (s : StorageState) (cid : String) (upd : ChapterUpdates) (now : Nat)
    (ch : Chapter) (b : Book)
    (hfind : getChapter s cid = some ch)
    (hcontent : upd.content.isSome = true)
    (hbook : getBook s ch.bookId = some b) :
    ∃ s' ch' b',
      updateChapter s cid upd now = some (s', ch') ∧
      getBook s' ch.bookId = some b' ∧
      (b'.progress = 100 → b'.status = "completed") ∧
      (b'.progress < 100 →
        (b.status = "approved" ∨ b.status = "outline" ∨ b.status = "writing") →
        b'.status = "writing") := by
  obtain ⟨s', ch', b', hrun, hfound, _, _, _, hstatus⟩ :=
    updateChapter_content_run s cid upd now ch b hfind hcontent hbook
  refine ⟨s', ch', b', hrun, hfound, ?_, ?_⟩
  · intro h100
    rw [hstatus, if_pos h100]
  · intro hlt _
    rw [hstatus, if_neg (ne_of_lt hlt)]

/-- Witness for C3 on the concrete sample store. -/
theorem c3_updateChapter_status_transitions_witness :
    getChapter sampleState "c1" = some sampleChapter ∧
    getBook sampleState "b1" = some sampleBook ∧
    ∃ s' ch' b',
      updateChapter sampleState "c1"
        { content := some (some "one two") } 6 = some (s', ch') ∧
      getBook s' "b1" = some b' ∧
      (b'.progress = 100 → b'.status = "completed") ∧
      (b'.progress < 100 →
        (sampleBook.status = "approved" ∨ sampleBook.status = "outline" ∨
          sampleBook.status = "writing") →
        b'.status = "writing") :=
  ⟨by decide, by decide,
    c3_updateChapter_status_transitions sampleState "c1"
      { content := some (some "one two") } 6 sampleChapter sampleBook
      (by decide) (by decide) (by decide)⟩

/-- C10: an update record without a content key leaves the books map, and
hence every field of the parent book, untouched. -/
theorem c10_updateChapter_without_content_books_unchanged
    (s : StorageState) (cid : String) (upd : ChapterUpdates) (now : Nat)
    (h : upd.content = none) :
    ((updateChapter s cid upd now).map (fun r => r.1.books)).getD s.books =
      s.books := by
  have hfalse : upd.content.isSome = false := by rw [h]; rfl
  cases hfind : getChapter s cid with
  | none => simp [updateChapter, hfind]
  | some existing => simp [updateChapter, hfind, hfalse]

/-- Witness for C10 on the concrete sample store with a title-only
update. -/
theorem c10_updateChapter_without_content_books_unchanged_witness :
    (ChapterUpdates.content { title := some "Renamed" } = none) ∧
    ((updateChapter sampleState "c1" { title := some "Renamed" } 9).map
      (fun r => r.1.books)).getD sampleState.books = sampleState.books :=
  ⟨by decide,
    c10_updateChapter_without_content_books_unchanged sampleState "c1"
      { title := some "Renamed" } 9 (by decide)⟩

/-- C2 counterexample: `createChapter` stores word count 0 even though the
supplied content "hello world" has two whitespace-separated tokens. -/
theorem c2_createChapter_content_counterexample :
    ((createChapter {}
        { bookId := "b1", outlineId := "o1", chapterNumber := 1,
          title := "Intro", content := some "hello world", wordCount := none,
          status := none } "c1" 0).2).wordCount ≠ countWords "hello world" := by
  decide

/-- C2 amended: `createChapter` always stores word count 0 regardless of
the supplied content; `updateChapter` stores the token count of the
supplied content when it is a non-empty string, and keeps the chapter's
previous word count when the supplied content is null or the empty
string. -/
theorem c2_word_count_storage_behaviour :
    (∀ (s : StorageState) (ins : InsertChapter) (newId : String) (now : Nat),
      ((createChapter s ins newId now).2).wordCount = 0) ∧
    (∀ (s : StorageState) (cid : String) (upd : ChapterUpdates) (now : Nat)
        (ch : Chapter) (c : String),
      getChapter s cid = some ch → upd.content = some (some c) → c ≠ "" →
      ∃ s', updateChapter s cid upd now = some (s', mergeChapter ch upd now) ∧
        (mergeChapter ch upd now).wordCount = countWords c) ∧
    (∀ (s : StorageState) (cid : String) (upd : ChapterUpdates) (now : Nat)
        (ch : Chapter),
      getChapter s cid = some ch →
      (upd.content = some none ∨ upd.content = some (some "")) →
      ∃ s', updateChapter s cid upd now = some (s', mergeChapter ch upd now) ∧
        (mergeChapter ch upd now).wordCount = ch.wordCount) := by
  refine ⟨fun s ins newId now => rfl, ?_, ?_⟩
  · intro s cid upd now ch c hfind hc hne
    have hsome : upd.content.isSome = true := by rw [hc]; rfl
    have hwc : (mergeChapter ch upd now).wordCount = countWords c := by
      show newWordCount ch upd.content = countWords c
      rw [hc]
      simp [newWordCount, hne]
    simp only [updateChapter, hfind, hsome, if_true]
    split
    · exact ⟨_, rfl, hwc⟩
    · exact ⟨_, rfl, hwc⟩
  · intro s cid upd now ch hfind hc
    have hsome : upd.content.isSome = true := by
      rcases hc with h | h <;> rw [h] <;> rfl
    have hwc : (mergeChapter ch upd now).wordCount = ch.wordCount := by
      show newWordCount ch upd.content = ch.wordCount
      rcases hc with h | h <;> rw [h] <;> simp [newWordCount]
    simp only [updateChapter, hfind, hsome, if_true]
    split
    · exact ⟨_, rfl, hwc⟩
    · exact ⟨_, rfl, hwc⟩

/-- Witness for the amended C2 on the concrete sample store. -/
theorem c2_word_count_storage_behaviour_witness :
    ((createChapter {}
        { bookId := "b2", outlineId := "o2", chapterNumber := 2,
          title := "Next", content := some "x y z", wordCount := none,
          status := none } "c2" 1).2).wordCount = 0 ∧
    (getChapter sampleState "c1" = some sampleChapter ∧
      ∃ s', updateChapter sampleState "c1"
          { content := some (some "alpha beta gamma") } 7 =
        some (s', mergeChapter sampleChapter
          { content := some (some "alpha beta gamma") } 7) ∧
        (mergeChapter sampleChapter
          { content := some (some "alpha beta gamma") } 7).wordCount =
          countWords "alpha beta gamma") ∧
    (getChapter sampleState "c1" = some sampleChapter ∧
      ∃ s', updateChapter sampleState "c1" { content := some none } 8 =
        some (s', mergeChapter sampleChapter { content := some none } 8) ∧
        (mergeChapter sampleChapter
          { content := some none } 8).wordCount = sampleChapter.wordCount) :=
  ⟨c2_word_count_storage_behaviour.1 {}
      { bookId := "b2", outlineId := "o2", chapterNumber := 2,
        title := "Next", content := some "x y z", wordCount := none,
        status := none } "c2" 1,
    ⟨by decide,
      c2_word_count_storage_behaviour.2.1 sampleState "c1"
        { content := some (some "alpha beta gamma") } 7 sampleChapter
        "alpha beta gamma" (by decide) (by decide) (by decide)⟩,
    ⟨by decide,
      c2_word_count_storage_behaviour.2.2 sampleState "c1"
        { content := some none } 8 sampleChapter (by decide)
        (Or.inl (by decide))⟩⟩

/-- Outline insert whose supplied totals disagree with its one-entry
chapter plan. -/
def inconsistentOutlineInsert : InsertOutline :=
  { bookId := "b1", title := "Plan",
    chapters := [{ id := "e1", title := "One", description := "d",
                   keyPoints := [], estimatedWordCount := 100 }],
    totalChapters := 5, totalEstimatedWords := 7 }

/-- C7 counterexample: `createOutline` stores the supplied total of 5
although the chapter plan has exactly one entry. -/
theorem c7_outline_totals_counterexample :
    ¬ (((createOutline {} inconsistentOutlineInsert "o1" 0).2).totalChapters =
        ((((createOutline {} inconsistentOutlineInsert "o1" 0).2).chapters.length
          : Int))) := by
  decide

/-- C7 amended: the outline totals are stored exactly as supplied by the
caller (`createOutline`), or merged with the JS falsy fallback
(`updateOutline`); the spec's invariant holds after `createOutline`
precisely when the caller supplies totals consistent with the supplied
chapter plan. -/
theorem c7_outline_totals_as_supplied :
    (∀ (s : StorageState) (ins : InsertOutline) (newId : String) (now : Nat),
      ((createOutline s ins newId now).2).totalChapters = ins.totalChapters ∧
      ((createOutline s ins newId now).2).totalEstimatedWords =
        ins.totalEstimatedWords ∧
      ((((createOutline s ins newId now).2).totalChapters =
          ((((createOutline s ins newId now).2).chapters.length : Int)) ∧
        ((createOutline s ins newId now).2).totalEstimatedWords =
          (((createOutline s ins newId now).2).chapters.map
            ChapterPlanEntry.estimatedWordCount).sum) ↔
        (ins.totalChapters = (ins.chapters.length : Int) ∧
          ins.totalEstimatedWords =
            (ins.chapters.map ChapterPlanEntry.estimatedWordCount).sum))) ∧
    (∀ (s : StorageState) (oid : String) (upd : OutlineUpdates) (now : Nat)
        (s' : StorageState) (o' o : Outline),
      updateOutline s oid upd now = some (s', o') →
      getOutline s oid = some o →
      o'.totalChapters = jsOrInt upd.totalChapters o.totalChapters ∧
      o'.totalEstimatedWords =
        jsOrInt upd.totalEstimatedWords o.totalEstimatedWords) := by
  refine ⟨fun s ins newId now => ⟨rfl, rfl, Iff.rfl⟩, ?_⟩
  intro s oid upd now s' o' o hrun hfound
  rw [updateOutline, hfound] at hrun
  obtain ⟨-, rfl⟩ := Prod.mk.injEq .. ▸ Option.some.injEq .. ▸ hrun
  exact ⟨rfl, rfl⟩

/-- Concrete stored outline used by the outline theorems. -/
def sampleOutline : Outline :=
  { id := "o1", bookId := "b1", title := "Plan",
    chapters := [{ id := "e1", title := "One", description := "d",
                   keyPoints := [], estimatedWordCount := 100 }],
    isApproved := true, approvedAt := some 1, totalChapters := 1,
    totalEstimatedWords := 100, createdAt := 0, updatedAt := 0 }

/-- Concrete store holding `sampleOutline` alongside the sample book and
chapter. -/
def sampleStateWithOutline : StorageState :=
  { books := [sampleBook], outlines := [sampleOutline],
    chapters := [sampleChapter] }

/-- Witness for the amended C7 on the concrete sample store. -/
theorem c7_outline_totals_as_supplied_witness :
    ((createOutline {} inconsistentOutlineInsert "o1" 0).2).totalChapters =
      inconsistentOutlineInsert.totalChapters ∧
    ∃ (s' : StorageState) (o' : Outline),
      updateOutline sampleStateWithOutline "o1"
        { totalChapters := some 3 } 9 = some (s', o') ∧
      o'.totalChapters = jsOrInt (some 3) sampleOutline.totalChapters ∧
      o'.totalEstimatedWords = jsOrInt none sampleOutline.totalEstimatedWords :=
  ⟨(c7_outline_totals_as_supplied.1 {} inconsistentOutlineInsert "o1" 0).1,
    ⟨_, _, rfl,
      (c7_outline_totals_as_supplied.2 sampleStateWithOutline "o1"
        { totalChapters := some 3 } 9 _ _ sampleOutline rfl (by decide)).1,
      (c7_outline_totals_as_supplied.2 sampleStateWithOutline "o1"
        { totalChapters := some 3 } 9 _ _ sampleOutline rfl (by decide)).2⟩⟩

/-- C8 counterexample: a book with target word count 0 and a chapter with
chapter number 0 are both stored, not rejected. -/
theorem c8_no_validation_counterexample :
    (getBook ((createBook {}
        { userId := "u1", title := "T", genre := "g", targetWordCount := 0,
          status := none, description := none, targetAudience := none,
          keyPoints := none } "b9" 2).1) "b9").map Book.targetWordCount =
      some 0 ∧
    (getChapter ((createChapter {}
        { bookId := "b9", outlineId := "o9", chapterNumber := 0, title := "Z",
          content := none, wordCount := none, status := none } "c9" 2).1)
      "c9").map Chapter.chapterNumber = some 0 := by
  decide

/-- C8 amended: neither `createBook` nor `createChapter` performs any range
validation; a non-positive target word count and a non-positive chapter
number are stored verbatim and the created record is retrievable. -/
theorem c8_no_range_validation :
    (∀ (s : StorageState) (ins : InsertBook) (newId : String) (now : Nat),
      ins.targetWordCount ≤ 0 →
      getBook ((createBook s ins newId now).1) newId =
        some ((createBook s ins newId now).2) ∧
      ((createBook s ins newId now).2).targetWordCount =
        ins.targetWordCount) ∧
    (∀ (s : StorageState) (ins : InsertChapter) (newId : String) (now : Nat),
      ins.chapterNumber ≤ 0 →
      getChapter ((createChapter s ins newId now).1) newId =
        some ((createChapter s ins newId now).2) ∧
      ((createChapter s ins newId now).2).chapterNumber =
        ins.chapterNumber) := by
  constructor
  · intro s ins newId now _
    exact ⟨find?_upsertBy_of_key Book.id _ s.books newId rfl, rfl⟩
  · intro s ins newId now _
    exact ⟨find?_upsertBy_of_key Chapter.id _ s.chapters newId rfl, rfl⟩

/-- Witness for the amended C8 at target word count 0 and chapter
number 0. -/
theorem c8_no_range_validation_witness :
    ((0 : Int) ≤ 0 ∧
      getBook ((createBook {}
          { userId := "u1", title := "T", genre := "g", targetWordCount := 0,
            status := none, description := none, targetAudience := none,
            keyPoints := none } "b9" 2).1) "b9" =
        some ((createBook {}
          { userId := "u1", title := "T", genre := "g", targetWordCount := 0,
            status := none, description := none, targetAudience := none,
            keyPoints := none } "b9" 2).2)) ∧
    ((0 : Int) ≤ 0 ∧
      getChapter ((createChapter {}
          { bookId := "b9", outlineId := "o9", chapterNumber := 0,
            title := "Z", content := none, wordCount := none,
            status := none } "c9" 2).1) "c9" =
        some ((createChapter {}
          { bookId := "b9", outlineId := "o9", chapterNumber := 0,
            title := "Z", content := none, wordCount := none,
            status := none } "c9" 2).2)) :=
  ⟨⟨le_refl 0,
    (c8_no_range_validation.1 {}
      { userId := "u1", title := "T", genre := "g", targetWordCount := 0,
        status := none, description := none, targetAudience := none,
        keyPoints := none } "b9" 2 (by decide)).1⟩,
   ⟨le_refl 0,
    (c8_no_range_validation.2 {}
      { bookId := "b9", outlineId := "o9", chapterNumber := 0, title := "Z",
        content := none, wordCount := none, status := none } "c9" 2
      (by decide)).1⟩⟩

/-- A string has positive length exactly when it is not the empty
string. -/
theorem string_length_pos_iff (s : String) : 0 < s.length ↔ s ≠ "" := by
  constructor
  · intro h heq
    rw [heq] at h
    exact absurd h (by decide)
  · intro hne
    cases s with
    | mk data =>
      cases data with
      | nil => exact absurd rfl hne
      | cons c cs => simp [String.length]

/-- C9: the rendering model splits chapter content on line breaks,
discards blank lines, and emits exactly one HTML-escaped paragraph element
per non-blank line, in the original order, with no re-wrapping or
merging. -/
theorem c9_rendering_one_paragraph_per_line (content : String) :
    parseContentToParagraphs content =
      ((jsSplitLines content).filter (fun line => jsTrim line ≠ "")).map
        (fun line => jsTrim line) ∧
    parseContentToHTML content =
      String.intercalate "\n" ((parseContentToParagraphs content).map
        (fun p => "<p>" ++ escapeHtml p ++ "</p>")) := by
  constructor
  · unfold parseContentToParagraphs
    congr 1
    apply List.filter_congr
    intro l _
    simp [decide_eq_decide, string_length_pos_iff]
  · unfold parseContentToHTML parseContentToParagraphs
    rw [List.map_map]
    rfl

/-- The exporter never writes the store: the state component of its result
is the input state on every control path. -/
theorem exportBook_fst (s : StorageState) (bid : String)
    (opts : ExportOptions) : (exportBook s bid opts).1 = s := by
  unfold exportBook
  split
  · rfl
  · dsimp only
    split_ifs <;> rfl

/-- C4: for an existing book, export fails with the invalid-state error
whenever the status is not completed, fails with the missing-chapters
error when the status is completed but no chapter exists, and succeeds
only when the status is completed and at least one chapter exists. -/
theorem c4_exportBook_preconditions
    (s : StorageState) (bid : String) (opts : ExportOptions) (book : Book)
    (hbook : getBook s bid = some book) :
    (book.status ≠ "completed" →
      (exportBook s bid opts).2 =
        Except.error ExportError.invalidStateNotCompleted) ∧
    (book.status = "completed" → getChaptersByBookId s bid = [] →
      (exportBook s bid opts).2 = Except.error ExportError.chaptersNotFound) ∧
    (∀ r, (exportBook s bid opts).2 = Except.ok r →
      book.status = "completed" ∧ getChaptersByBookId s bid ≠ []) := by
  refine ⟨?_, ?_, ?_⟩
  · intro hne
    simp only [exportBook, hbook]
    rw [if_pos hne]
  · intro hst hempty
    simp only [exportBook, hbook, hst, hempty]
    simp
  · intro r hr
    by_cases hst : book.status = "completed"
    · by_cases hempty : getChaptersByBookId s bid = []
      · rw [show (exportBook s bid opts).2 =
            Except.error ExportError.chaptersNotFound by
          simp only [exportBook, hbook, hst, hempty]; simp] at hr
        cases hr
      · exact ⟨hst, hempty⟩
    · rw [show (exportBook s bid opts).2 =
          Except.error ExportError.invalidStateNotCompleted by
        simp only [exportBook, hbook]; rw [if_pos hst]] at hr
      cases hr

/-- Witness for C4: the sample book has status approved, so its export
fails with the invalid-state error. -/
theorem c4_exportBook_preconditions_witness :
    getBook sampleState "b1" = some sampleBook ∧
    (sampleBook.status ≠ "completed" →
      (exportBook sampleState "b1"
        { format := "txt", pageSize := "letter",
          includeTableOfContents := true, includeMetadata := true }).2 =
        Except.error ExportError.invalidStateNotCompleted) ∧
    (exportBook sampleState "b1"
      { format := "txt", pageSize := "letter",
        includeTableOfContents := true, includeMetadata := true }).2 =
      Except.error ExportError.invalidStateNotCompleted :=
  ⟨by decide,
    (c4_exportBook_preconditions sampleState "b1"
      { format := "txt", pageSize := "letter",
        includeTableOfContents := true, includeMetadata := true }
      sampleBook (by decide)).1,
    (c4_exportBook_preconditions sampleState "b1"
      { format := "txt", pageSize := "letter",
        includeTableOfContents := true, includeMetadata := true }
      sampleBook (by decide)).1 (by decide)⟩

/-- C5: once the export preconditions hold, any format token outside the
four supported ones fails with the unsupported-format error, and the
stored state is unchanged by the call. -/
theorem c5_exportBook_unsupported_format
    (s : StorageState) (bid : String) (opts : ExportOptions) (book : Book)
    (hbook : getBook s bid = some book)
    (hst : book.status = "completed")
    (hch : getChaptersByBookId s bid ≠ [])
    (hfmt : opts.format ∉ (["txt", "docx", "pdf", "epub"] : List String)) :
    (exportBook s bid opts).2 =
      Except.error (ExportError.unsupportedFormat opts.format) ∧
    (exportBook s bid opts).1 = s := by
  have hdocx : ¬ opts.format = "docx" := fun h => hfmt (by rw [h]; decide)
  have hpdf : ¬ opts.format = "pdf" := fun h => hfmt (by rw [h]; decide)
  have htxt : ¬ opts.format = "txt" := fun h => hfmt (by rw [h]; decide)
  have hepub : ¬ opts.format = "epub" := fun h => hfmt (by rw [h]; decide)
  have hempty : (getChaptersByBookId s bid).isEmpty = false :=
    List.isEmpty_eq_false.mpr hch
  refine ⟨?_, exportBook_fst s bid opts⟩
  simp only [exportBook, hbook, hst, hempty]
  rw [if_neg (fun h => h rfl)]
  simp only [Bool.false_eq_true, if_false]
  rw [if_neg hdocx, if_neg hpdf, if_neg htxt, if_neg hepub]

/-- The sample book in the completed state. -/
def c5CompletedBook : Book :=
  { sampleBook with status := "completed" }

/-- Concrete store holding a completed book with one chapter. -/
def c5SampleState : StorageState :=
  { books := [c5CompletedBook], outlines := [], chapters := [sampleChapter] }

/-- Witness for C5: a completed one-chapter book exported with format token
mobi fails with the unsupported-format error and leaves the store
unchanged. -/
theorem c5_exportBook_unsupported_format_witness :
    getBook c5SampleState "b1" = some c5CompletedBook ∧
    c5CompletedBook.status = "completed" ∧
    getChaptersByBookId c5SampleState "b1" ≠ [] ∧
    "mobi" ∉ (["txt", "docx", "pdf", "epub"] : List String) ∧
    (exportBook c5SampleState "b1"
      { format := "mobi", pageSize := "letter",
        includeTableOfContents := false, includeMetadata := false }).2 =
      Except.error (ExportError.unsupportedFormat "mobi") ∧
    (exportBook c5SampleState "b1"
      { format := "mobi", pageSize := "letter",
        includeTableOfContents := false, includeMetadata := false }).1 =
      c5SampleState :=
  ⟨by decide, by decide, by decide, by decide,
    (c5_exportBook_unsupported_format c5SampleState "b1"
      { format := "mobi", pageSize := "letter",
        includeTableOfContents := false, includeMetadata := false }
      c5CompletedBook (by decide) (by decide) (by decide) (by decide)).1,
    (c5_exportBook_unsupported_format c5SampleState "b1"
      { format := "mobi", pageSize := "letter",
        includeTableOfContents := false, includeMetadata := false }
      c5CompletedBook (by decide) (by decide) (by decide) (by decide)).2⟩

/-- Decomposition of membership in an upsert result. -/
theorem upsertBy_mem {α : Type} (key : α → String) (x : α) (l : List α)
    (y : α) (hy : y ∈ upsertBy key x l) : y = x ∨ y ∈ l := by
  unfold upsertBy at hy
  split at hy
  · rcases List.mem_map.mp hy with ⟨z, hz, hzz⟩
    by_cases h : key z = key x
    · left
      rw [← hzz, if_pos h]
    · right
      rw [← hzz, if_neg h]
      exact hz
  · rcases List.mem_append.mp hy with h | h
    · right
      exact h
    · left
      simpa using h

/-- `updateBook` never touches the outlines map. -/
theorem updateBook_outlines (s : StorageState) (id : String)
    (upd : BookUpdates) (now : Nat) :
    ((updateBook s id upd now).1).outlines = s.outlines := by
  rw [updateBook]
  split <;> rfl

/-- `updateChapter` never touches the outlines map. -/
theorem updateChapter_outlines (s : StorageState) (cid : String)
    (upd : ChapterUpdates) (now : Nat) (p : StorageState × Chapter)
    (h : updateChapter s cid upd now = some p) :
    p.1.outlines = s.outlines := by
  rw [updateChapter] at h
  split at h
  · cases h
  · split at h
    · dsimp only at h
      split at h
      · cases h
        rfl
      · cases h
        rfl
    · cases h
      rfl

/-- C6: outline approval is monotonic.  For any lifecycle-engine operation
(with fresh generated ids), an outline record that is approved before the
operation and still present after it remains approved. -/
theorem c6_outline_approval_monotonic
    (s : StorageState) (op : Op) (oid : String) (r r' : Outline)
    (hnodup : (s.outlines.map Outline.id).Nodup)
    (hfresh : opFreshOutlineId s op)
    (hr : getOutline s oid = some r)
    (happ : r.isApproved = true)
    (hr' : getOutline (applyOp s op) oid = some r') :
    r'.isApproved = true := by
  have hrid : r.id = oid := by simpa using List.find?_some hr
  have hrmem : r ∈ s.outlines := List.mem_of_find?_eq_some hr
  have huniq : ∀ x ∈ s.outlines, x.id = oid → x = r := by
    intro x hx hxid
    exact List.inj_on_of_nodup_map hnodup hx hrmem (by rw [hxid, hrid])
  have same_list : ∀ t : StorageState, t.outlines = s.outlines →
      getOutline t oid = some r' → r'.isApproved = true := by
    intro t ht h'
    have h2 : getOutline s oid = some r' := by
      rw [getOutline, ← ht]
      exact h'
    rw [hr] at h2
    cases Option.some.inj h2
    exact happ
  have from_upsert : ∀ u : Outline,
      (u.id = oid → u.isApproved = true) →
      ∀ t : StorageState,
      t.outlines = upsertBy Outline.id u s.outlines →
      getOutline t oid = some r' → r'.isApproved = true := by
    intro u hu t ht h'
    have hid : r'.id = oid := by simpa using List.find?_some h'
    have hmem : r' ∈ t.outlines := List.mem_of_find?_eq_some h'
    rw [ht] at hmem
    rcases upsertBy_mem Outline.id u s.outlines r' hmem with h1 | h2
    · rw [h1]
      exact hu (h1 ▸ hid)
    · rw [huniq r' h2 hid]
      exact happ
  cases op with
  | createBook ins newId now => exact same_list _ rfl hr'
  | updateBook id upd now =>
    exact same_list _ (updateBook_outlines s id upd now) hr'
  | deleteBook id =>
    have hid : r'.id = oid := by simpa using List.find?_some hr'
    have hmem : r' ∈ s.outlines :=
      List.mem_of_mem_filter (List.mem_of_find?_eq_some hr')
    rw [huniq r' hmem hid]
    exact happ
  | createOutline ins newId now =>
    refine from_upsert _ ?_ _ rfl hr'
    intro hnew
    have hfresh' : getOutline s oid = none := by
      have : getOutline s newId = none := hfresh
      rwa [show newId = oid from hnew] at this
    rw [hr] at hfresh'
    cases hfresh'
  | updateOutline id upd now =>
    cases hex : getOutline s id with
    | none =>
      have happly : applyOp s (Op.updateOutline id upd now) = s := by
        simp [applyOp, updateOutline, hex]
      rw [happly] at hr'
      exact same_list s rfl hr'
    | some existing =>
      have hexmem : existing ∈ s.outlines := List.mem_of_find?_eq_some hex
      have happly : applyOp s (Op.updateOutline id upd now) =
          { s with outlines :=
              upsertBy Outline.id (mergeOutline existing upd now) s.outlines } := by
        simp [applyOp, updateOutline, hex]
      rw [happly] at hr'
      refine from_upsert _ ?_ _ rfl hr'
      intro hmoid
      have hex_r : existing = r := huniq existing hexmem hmoid
      show existing.isApproved = true
      rw [hex_r]
      exact happ
  | approveOutline id now =>
    cases hex : getOutline s id with
    | none =>
      have happly : applyOp s (Op.approveOutline id now) = s := by
        simp [applyOp, approveOutline, hex]
      rw [happly] at hr'
      exact same_list s rfl hr'
    | some existing =>
      have houtl : (applyOp s (Op.approveOutline id now)).outlines =
          upsertBy Outline.id (approvedOutline existing now) s.outlines := by
        simp [applyOp, approveOutline, hex, updateBook_outlines]
      exact from_upsert _ (fun _ => rfl) _ houtl hr'
  | createChapter ins newId now => exact same_list _ rfl hr'
  | updateChapter cid upd now =>
    cases hrun : updateChapter s cid upd now with
    | none =>
      have happly : applyOp s (Op.updateChapter cid upd now) = s := by
        simp [applyOp, hrun]
      rw [happly] at hr'
      exact same_list s rfl hr'
    | some p =>
      have happly : applyOp s (Op.updateChapter cid upd now) = p.1 := by
        simp [applyOp, hrun]
      rw [happly] at hr'
      exact same_list p.1 (updateChapter_outlines s cid upd now p hrun) hr'

/-- Witness for C6: updating the approved sample outline's title leaves it
approved. -/
theorem c6_outline_approval_monotonic_witness :
    (sampleStateWithOutline.outlines.map Outline.id).Nodup ∧
    getOutline sampleStateWithOutline "o1" = some sampleOutline ∧
    sampleOutline.isApproved = true ∧
    getOutline
        (applyOp sampleStateWithOutline
          (Op.updateOutline "o1" { title := some "Renamed plan" } 9)) "o1" =
      some (mergeOutline sampleOutline { title := some "Renamed plan" } 9) ∧
    (mergeOutline sampleOutline
      { title := some "Renamed plan" } 9).isApproved = true :=
  ⟨by decide, by decide, by decide, by decide,
    c6_outline_approval_monotonic sampleStateWithOutline
      (Op.updateOutline "o1" { title := some "Renamed plan" } 9) "o1"
      sampleOutline (mergeOutline sampleOutline
        { title := some "Renamed plan" } 9)
      (by decide) trivial (by decide) (by decide) (by decide)⟩
